import Mathlib

/-!
Verification of `sim/resources/stompypro/joints.py`.

The Python module defines a class hierarchy rooted at `Node` (an ABC) whose
subclasses hold joint names as string-valued class attributes and sub-groups
as `Node`-valued class attributes.  The reflection methods `Node.children`,
`Node.joints` and `Node.all_joints` enumerate the class attributes through
Python's `dir(cls)`, which yields attribute NAMES SORTED ALPHABETICALLY,
filters out names starting with `"__"`, and then keeps only the attribute
values that are `str` or `Node` instances.

We embed a Python class (or instance) as a `PyObj`:
  * `PyObj.str s`            — a string-valued attribute (a joint name leaf);
  * `PyObj.other`            — any attribute value that is neither a `str`
                                nor a `Node` (floats, lists, bound methods,
                                the `_abc_impl` slot, `None`, ...);
  * `PyObj.node name attrs`  — a `Node` subclass (or instance) with class
                                name `name` and attribute namespace `attrs`;
  * `PyObj.anil` / `PyObj.acons key value rest` — the attribute namespace
    itself, an association list of attribute name / attribute value pairs,
    written in the source's class-body insertion order (the order is
    irrelevant after sorting, exactly as in Python where `dir` sorts).

Encoding the attribute list with its own constructors (`anil`/`acons`)
inside the single inductive keeps every function below plain structural
recursion, so every definition evaluates by kernel reduction (`decide`).
-/

inductive PyObj : Type where
  | str : String → PyObj
  | other : PyObj
  | anil : PyObj
  | acons : String → PyObj → PyObj → PyObj
  | node : String → PyObj → PyObj
  deriving DecidableEq

/-- Turn a `List` literal of attribute-name / value pairs into the
`anil`/`acons` encoding of an attribute namespace. -/
def attrsOf : List (String × PyObj) → PyObj
  | [] => PyObj.anil
  | (k, v) :: rest => PyObj.acons k v (attrsOf rest)

/-- The attribute namespace of a Python object: the attrs of a `node`,
empty for everything else. -/
def PyObj.attrs : PyObj → PyObj
  | .node _ as => as
  | _ => .anil

/-- The `__name__` of the class (used by `Node.__str__`). -/
def PyObj.className : PyObj → String
  | .node c _ => c
  | _ => ""

/-- `isinstance(x, Node)` for the embedding. -/
def PyObj.isNode : PyObj → Bool
  | .node _ _ => true
  | _ => false

/-- Lexicographic comparison of char lists by code point: the order Python
uses to compare `str` values, hence the order `dir(cls)` sorts names in. -/
def charListLe : List Char → List Char → Bool
  | [], _ => true
  | _ :: _, [] => false
  | a :: as, b :: bs =>
      if a < b then true
      else if b < a then false
      else charListLe as bs

/-- `a <= b` on strings, as Python compares attribute names in `sorted`. -/
def strLe (a b : String) : Bool := charListLe a.data b.data

/-- `name.startswith "__")`: the filter
`if not attr.startswith("__")` applied by `children` / `joints`. -/
def isDunder (s : String) : Bool :=
  match s.data with
  | '_' :: '_' :: _ => true
  | _ => false

/-- Insert one attribute into an already-sorted attribute namespace,
keeping it sorted by attribute name. -/
def insertAttr (k : String) (v : PyObj) : PyObj → PyObj
  | .acons k2 v2 rest =>
      if strLe k k2 then PyObj.acons k v (PyObj.acons k2 v2 rest)
      else PyObj.acons k2 v2 (insertAttr k v rest)
  | a => PyObj.acons k v a

/-- Insertion sort of an attribute namespace by attribute name: the
alphabetical ordering `dir(cls)` imposes. -/
def sortAttrs : PyObj → PyObj
  | .acons k v rest => insertAttr k v (sortAttrs rest)
  | _ => PyObj.anil

/-- Drop the attributes whose name starts with `"__"`, modelling the
comprehension filter `if not attr.startswith("__")`. -/
def dropDunder : PyObj → PyObj
  | .acons k v rest =>
      if isDunder k then dropDunder rest
      else PyObj.acons k v (dropDunder rest)
  | _ => PyObj.anil

/-- The attribute name/value pairs in the order the `Node` reflection
methods iterate them: `dir(cls)` (alphabetical) with dunder names removed. -/
def dirAttrs (n : PyObj) : PyObj := dropDunder (sortAttrs n.attrs)

/-- Keep the attribute values that pass `isinstance(attr, (Node, str))`,
in iteration order (body of `Node.children`). -/
def childVals : PyObj → List PyObj
  | .acons _ v rest =>
      match v with
      | .str s => PyObj.str s :: childVals rest
      | .node c as => PyObj.node c as :: childVals rest
      | _ => childVals rest
  | _ => []

/-- `Node.children`: attribute values that are `Node` or `str`, enumerated
over `dir(cls)` minus dunder names. -/
def PyObj.children (n : PyObj) : List PyObj := childVals (dirAttrs n)

/-- Keep only the string-valued attributes (body of `Node.joints`,
filter `isinstance(attr, str)`). -/
def jointVals : PyObj → List String
  | .acons _ v rest =>
      match v with
      | .str s => s :: jointVals rest
      | _ => jointVals rest
  | _ => []

/-- `Node.joints`: the string-valued attributes in `dir(cls)` order. -/
def PyObj.joints (n : PyObj) : List String := jointVals (dirAttrs n)

/-- Structural size of an object, used as recursion fuel for the traversals
that walk the sorted attribute lists. -/
def PyObj.size : PyObj → Nat
  | .str _ => 1
  | .other => 1
  | .anil => 1
  | .acons _ v rest => v.size + rest.size
  | .node _ as => as.size + 1

/-- Concatenate a list of lists (`leaves.extend(...)` accumulated). -/
def joinAll : List (List String) → List String
  | [] => []
  | l :: ls => l ++ joinAll ls

/-- Fuelled version of `Node.all_joints`: this node's `joints()` followed by
the recursive `all_joints()` of every child that is a `Node`, in child
order. -/
def allJointsF : Nat → PyObj → List String
  | 0, _ => []
  | f + 1, n =>
      n.joints ++ joinAll (n.children.map fun c =>
        if c.isNode then allJointsF f c else [])

/-- `Node.all_joints`: the fuelled traversal run with enough fuel
(`size` dominates the tree depth). -/
def PyObj.all_joints (n : PyObj) : List String := allJointsF n.size n

/-!
The concrete robot tree of the module.  Beyond the attributes written in
each class body we include the members that `dir` also reports and that the
reflection filters must discard: the inherited reflection methods and the
`_abc_impl` slot (values that are neither `str` nor `Node`, hence
`PyObj.other`), and the dunder attributes `__doc__` (`None`) and
`__module__` — note `__module__` IS a Python `str`, so the
`startswith("__")` filter is load-bearing: without it every class would
report its module path as a joint.
-/

/-- Attributes every `Node` subclass shares: inherited methods (bound
methods, filtered by `isinstance`), the ABC slot, and dunders (filtered by
the `"__"` test). -/
def nodeDirExtras : List (String × PyObj) :=
  [("__doc__", PyObj.other),
   ("__module__", PyObj.str "sim.resources.stompypro.joints"),
   ("_abc_impl", PyObj.other),
   ("all_joints", PyObj.other),
   ("children", PyObj.other),
   ("joints", PyObj.other),
   ("joints_motors", PyObj.other)]

def LeftLeg : PyObj :=
  PyObj.node "LeftLeg" (attrsOf (
    [("hip_pitch", PyObj.str "L_hip_y"),
     ("hip_yaw", PyObj.str "L_hip_x"),
     ("hip_roll", PyObj.str "L_hip_z"),
     ("knee_pitch", PyObj.str "L_knee"),
     ("ankle_pitch", PyObj.str "L_ankle_y")] ++ nodeDirExtras))

def RightLeg : PyObj :=
  PyObj.node "RightLeg" (attrsOf (
    [("hip_pitch", PyObj.str "R_hip_y"),
     ("hip_yaw", PyObj.str "R_hip_x"),
     ("hip_roll", PyObj.str "R_hip_z"),
     ("knee_pitch", PyObj.str "R_knee"),
     ("ankle_pitch", PyObj.str "R_ankle_y")] ++ nodeDirExtras))

def LeftArm : PyObj :=
  PyObj.node "LeftArm" (attrsOf (
    [("shoulder_pitch", PyObj.str "L_shoulder_y"),
     ("shoulder_roll", PyObj.str "L_shoulder_z"),
     ("shoulder_yaw", PyObj.str "L_shoulder_x"),
     ("elbow_pitch", PyObj.str "L_elbow_x")] ++ nodeDirExtras))

def RightArm : PyObj :=
  PyObj.node "RightArm" (attrsOf (
    [("shoulder_pitch", PyObj.str "R_shoulder_y"),
     ("shoulder_roll", PyObj.str "R_shoulder_z"),
     ("shoulder_yaw", PyObj.str "R_shoulder_x"),
     ("elbow_pitch", PyObj.str "R_elbow_x")] ++ nodeDirExtras))

def Legs : PyObj :=
  PyObj.node "Legs" (attrsOf (
    [("left", LeftLeg), ("right", RightLeg)] ++ nodeDirExtras))

def Arms : PyObj :=
  PyObj.node "Arms" (attrsOf (
    [("left", LeftArm), ("right", RightArm)] ++ nodeDirExtras))

/-- The `Robot` class: one `Node` child `legs` (the `arms` attribute is
commented out in the source); `height` (float) and `rotation` (list) plus
the classmethods are attribute values that are neither `str` nor `Node`. -/
def Robot : PyObj :=
  PyObj.node "Robot" (attrsOf (
    [("legs", Legs),
     ("height", PyObj.other),
     ("rotation", PyObj.other),
     ("isaac_to_mujoco_signs", PyObj.other),
     ("default_positions", PyObj.other),
     ("default_standing", PyObj.other),
     ("default_limits", PyObj.other),
     ("stiffness", PyObj.other),
     ("damping", PyObj.other),
     ("effort", PyObj.other),
     ("velocity", PyObj.other),
     ("friction", PyObj.other)] ++ nodeDirExtras))

/-!
`Node.__str__` and the flat tables of `Robot`, plus the diagnostic entry
point `print_joints`.
-/

/-- Split a char list at newline characters (each chunk is one line,
newlines not included). -/
def splitCharLines : List Char → List (List Char)
  | [] => [[]]
  | c :: rest =>
      if c = '\n' then [] :: splitCharLines rest
      else
        match splitCharLines rest with
        | [] => [[c]]
        | l :: ls => (c :: l) :: ls

/-- `textwrap.indent(s, "  ")`: prepend two spaces to every line of `s`
whose content is not pure whitespace (`textwrap`'s default predicate is
`line.strip()`). -/
def indentTwo (s : String) : String :=
  String.intercalate "\n" ((splitCharLines s.data).map fun cs =>
    if cs.all Char.isWhitespace then String.mk cs
    else "  " ++ String.mk cs)

/-- Fuelled `Node.__str__`: renders `[ClassName]` followed by the rendered
children, indented by two spaces.  A `str` child renders as itself
(`str(s) == s`); `other` never occurs among `children()`. -/
def renderF : Nat → PyObj → String
  | 0, _ => ""
  | f + 1, n =>
      let parts := n.children.map fun c =>
        match c with
        | PyObj.str s => s
        | c2 => renderF f c2
      "[" ++ n.className ++ "]" ++
        indentTwo ("\n" ++ String.intercalate "\n" parts)

/-- `Node.__str__` run with enough fuel. -/
def PyObj.render (n : PyObj) : String := renderF n.size n

/-- The condition of the assert in `print_joints`:
`len(joints) == len(set(joints))` (the cardinality of a Python set of
strings is the number of distinct elements, i.e. `List.dedup`'s length). -/
def uniqueCheck (l : List String) : Bool := l.length == l.dedup.length

/-- The body of `print_joints`, generalized over the tree it inspects (the
source hard-codes `Robot`): compute `all_joints()`, assert uniqueness
(a failed assert aborts the process before anything is printed, modelled
as `Except.error` carrying the assert message), then print `str(Robot())`
followed by `len(joints)`, modelled as the ordered list of printed lines. -/
def print_joints_on (n : PyObj) : Except String (List String) :=
  if uniqueCheck (PyObj.all_joints n) then
    Except.ok [PyObj.render n, toString (PyObj.all_joints n).length]
  else
    Except.error "Duplicate joint names found!"

/-- `print_joints` as in the source: the body above applied to `Robot`. -/
def print_joints : Except String (List String) := print_joints_on Robot

/-- `Robot.isaac_to_mujoco_signs`: the keys are the attribute references
`Robot.legs.left.hip_pitch`, ..., which resolve to the joint-name strings;
dict insertion order as written in the source. -/
def Robot.isaac_to_mujoco_signs : List (String × Int) :=
  [("L_hip_y", 1), ("L_hip_x", 1), ("L_hip_z", 1),
   ("L_knee", 1), ("L_ankle_y", 1),
   ("R_hip_y", 1), ("R_hip_x", 1), ("R_hip_z", 1),
   ("R_knee", 1), ("R_ankle_y", 1)]

/-- `Robot.default_positions`: the empty dict. -/
def Robot.default_positions : List (String × Rat) := []

/-- `Robot.default_standing`: float values embedded as the exact decimal
rationals written in the source (no claim does arithmetic on them). -/
def Robot.default_standing : List (String × Rat) :=
  [("L_hip_y", -0.157), ("L_hip_x", 0.0394), ("L_hip_z", 0.0628),
   ("L_knee", 0.441), ("L_ankle_y", -0.258),
   ("R_hip_y", -0.22), ("R_hip_x", 0.026), ("R_hip_z", 0.0314),
   ("R_knee", 0.441), ("R_ankle_y", -0.223)]

/-- `Robot.default_limits`: the empty dict. -/
def Robot.default_limits : List (String × List (String × Rat)) := []

/-- The key list of an embedded Python dict. -/
def dictKeys {α : Type} (d : List (String × α)) : List String :=
  d.map Prod.fst

/-- Errors of the spec's registry lookup API. -/
inductive RegError : Type where
  | UnknownJoint : String → RegError
  deriving DecidableEq

/-- Modelled from the spec: `sign_for(joint_name)` — the repository has no
such function in `src` (the spec describes it as the registry's lookup over
the sign table); per the spec it returns the entry of `sign_map` for the
name and fails with `UnknownJoint(joint_name)` when the name is absent,
rather than silently defaulting to `+1`. -/
def sign_for (j : String) : Except RegError Int :=
  match Robot.isaac_to_mujoco_signs.lookup j with
  | some v => Except.ok v
  | none => Except.error (RegError.UnknownJoint j)

/-!
Size lemmas: the fuel `PyObj.size` dominates the recursion depth of the
traversals, because sorting and filtering an attribute namespace never
increase its size and every child is strictly smaller than its parent.
-/

theorem PyObj.size_pos (n : PyObj) : 0 < n.size := by
  induction n with
  | str s => simp [PyObj.size]
  | other => simp [PyObj.size]
  | anil => simp [PyObj.size]
  | acons k v rest ihv ihr =>
      simp [PyObj.size]
      omega
  | node c as ih => simp [PyObj.size]

theorem size_insertAttr (k : String) (v l : PyObj) :
    (insertAttr k v l).size = v.size + l.size := by
  induction l with
  | str s => simp [insertAttr, PyObj.size]
  | other => simp [insertAttr, PyObj.size]
  | anil => simp [insertAttr, PyObj.size]
  | acons k2 v2 rest ihv ihr =>
      by_cases h : strLe k k2 = true
      · simp [insertAttr, h, PyObj.size]
      · simp [insertAttr, h, PyObj.size, ihr]
        omega
  | node c as ih => simp [insertAttr, PyObj.size]

theorem size_sortAttrs (l : PyObj) : (sortAttrs l).size ≤ l.size := by
  induction l with
  | acons k v rest ihv ihr =>
      simp [sortAttrs, size_insertAttr, PyObj.size]
      omega
  | str s => simp [sortAttrs, PyObj.size]
  | other => simp [sortAttrs, PyObj.size]
  | anil => simp [sortAttrs, PyObj.size]
  | node c as ih => simp [sortAttrs, PyObj.size]

theorem size_dropDunder (l : PyObj) : (dropDunder l).size ≤ l.size := by
  induction l with
  | acons k v rest ihv ihr =>
      by_cases h : isDunder k = true
      · simp [dropDunder, h, PyObj.size]
        have := v.size_pos
        omega
      · simp [dropDunder, h, PyObj.size]
        omega
  | str s => simp [dropDunder, PyObj.size]
  | other => simp [dropDunder, PyObj.size]
  | anil => simp [dropDunder, PyObj.size]
  | node c as ih => simp [dropDunder, PyObj.size]

theorem size_lt_of_mem_childVals {c l : PyObj} (h : c ∈ childVals l) :
    c.size < l.size := by
  induction l with
  | str s => simp [childVals] at h
  | other => simp [childVals] at h
  | anil => simp [childVals] at h
  | node cn as ih => simp [childVals] at h
  | acons k v rest ihv ihr =>
      have hrest : c ∈ childVals rest → c.size < (PyObj.acons k v rest).size := by
        intro hm
        have := ihr hm
        have := v.size_pos
        simp [PyObj.size]
        omega
      cases v with
      | str s =>
          simp [childVals] at h
          rcases h with h | h
          · subst h
            have := rest.size_pos
            simp [PyObj.size]
            omega
          · exact hrest h
      | node cn as =>
          simp [childVals] at h
          rcases h with h | h
          · subst h
            have := rest.size_pos
            simp [PyObj.size]
            omega
          · exact hrest h
      | other => exact hrest (by simpa [childVals] using h)
      | anil => exact hrest (by simpa [childVals] using h)
      | acons k2 v2 r2 => exact hrest (by simpa [childVals] using h)

theorem size_lt_of_mem_children {c n : PyObj} (h : c ∈ n.children) :
    c.size < n.size := by
  cases n with
  | node cn as =>
      have h1 : c.size < (dirAttrs (PyObj.node cn as)).size :=
        size_lt_of_mem_childVals h
      have h2 : (dirAttrs (PyObj.node cn as)).size ≤ as.size := by
        calc (dirAttrs (PyObj.node cn as)).size
            ≤ (sortAttrs (PyObj.node cn as).attrs).size := size_dropDunder _
          _ ≤ (PyObj.node cn as).attrs.size := size_sortAttrs _
          _ = as.size := by simp [PyObj.attrs]
      simp only [PyObj.size]
      omega
  | str s =>
      simp [PyObj.children, dirAttrs, PyObj.attrs, sortAttrs, dropDunder,
        childVals] at h
  | other =>
      simp [PyObj.children, dirAttrs, PyObj.attrs, sortAttrs, dropDunder,
        childVals] at h
  | anil =>
      simp [PyObj.children, dirAttrs, PyObj.attrs, sortAttrs, dropDunder,
        childVals] at h
  | acons k v rest =>
      simp [PyObj.children, dirAttrs, PyObj.attrs, sortAttrs, dropDunder,
        childVals] at h

/-- Two runs of the fuelled traversal agree as soon as both fuels dominate
the size of the tree. -/
theorem allJointsF_congr (f : Nat) :
    ∀ (g : Nat) (n : PyObj), n.size ≤ f → n.size ≤ g →
      allJointsF f n = allJointsF g n := by
  induction f with
  | zero =>
      intro g n hf _
      have := n.size_pos
      omega
  | succ f ih =>
      intro g n hf hg
      have := n.size_pos
      obtain ⟨g2, rfl⟩ : ∃ g2, g = g2 + 1 := ⟨g - 1, by omega⟩
      simp only [allJointsF]
      congr 1
      congr 1
      apply List.map_congr_left
      intro c hc
      have hlt : c.size < n.size := size_lt_of_mem_children hc
      by_cases hn : c.isNode = true
      · simp only [hn, if_true]
        exact ih g2 c (by omega) (by omega)
      · simp [hn]

theorem allJointsF_stable {f : Nat} {n : PyObj} (h : n.size ≤ f) :
    allJointsF f n = PyObj.all_joints n :=
  allJointsF_congr f n.size n h (Nat.le_refl _)

/-- Claim C3 (confirmed): for every node, `all_joints()` equals the
concatenation of the node's own `joints()` with the `all_joints()` of each
child that is a Group (`Node`), taken in child order — a pre-order,
depth-first flattening of the tree (children that are plain joint strings
contribute nothing to the recursive part, having already been listed by
`joints()`). -/
theorem all_joints_preorder (n : PyObj) :
    PyObj.all_joints n =
      n.joints ++ joinAll (n.children.map fun c =>
        if c.isNode then PyObj.all_joints c else []) := by
  have := n.size_pos
  obtain ⟨s, hs⟩ : ∃ s, n.size = s + 1 := ⟨n.size - 1, by omega⟩
  conv_lhs => rw [PyObj.all_joints, hs]
  simp only [allJointsF]
  congr 1
  congr 1
  apply List.map_congr_left
  intro c hc
  have hlt : c.size < n.size := size_lt_of_mem_children hc
  by_cases hn : c.isNode = true
  · simp only [hn, if_true]
    exact allJointsF_stable (by omega)
  · simp [hn]

/-- The assert condition of `print_joints` holds exactly when the joint
list has no duplicate. -/
theorem uniqueCheck_iff (l : List String) :
    uniqueCheck l = true ↔ l.Nodup := by
  unfold uniqueCheck
  rw [beq_iff_eq]
  constructor
  · intro h
    exact List.dedup_eq_self.mp
      (List.Sublist.eq_of_length (List.dedup_sublist l) h.symm)
  · intro h
    rw [List.dedup_eq_self.mpr h]

/-!
The remaining claim theorems.
-/

/-- Claim C1 counterexample: `Node.joints` does NOT list `LeftLeg`'s direct
joints in class-body insertion order
`["L_hip_y", "L_hip_x", "L_hip_z", "L_knee", "L_ankle_y"]` — `dir(cls)`
sorts attribute names alphabetically. -/
theorem leftLeg_joints_not_insertion_order :
    ¬ (PyObj.joints LeftLeg =
      ["L_hip_y", "L_hip_x", "L_hip_z", "L_knee", "L_ankle_y"]) := by
  decide

/-- Claim C1 (amended): `Node.joints` and `Node.all_joints` list a node's
direct joints in `dir(cls)` order, i.e. sorted alphabetically by the
attribute name holding each joint; for `LeftLeg` (attribute order
`ankle_pitch < hip_pitch < hip_roll < hip_yaw < knee_pitch`) both yield
`["L_ankle_y", "L_hip_y", "L_hip_z", "L_hip_x", "L_knee"]`. -/
theorem leftLeg_joints_dir_order :
    PyObj.joints LeftLeg =
      ["L_ankle_y", "L_hip_y", "L_hip_z", "L_hip_x", "L_knee"] ∧
    PyObj.all_joints LeftLeg =
      ["L_ankle_y", "L_hip_y", "L_hip_z", "L_hip_x", "L_knee"] := by
  constructor
  · decide
  · decide

/-- Claim C2 (confirmed): for every tree, the assert condition of
`print_joints` (`len(joints) == len(set(joints))`) succeeds if and only if
`all_joints()` contains no repeated string — both directions. -/
theorem uniqueCheck_succeeds_iff_nodup (n : PyObj) :
    uniqueCheck (PyObj.all_joints n) = true ↔ (PyObj.all_joints n).Nodup :=
  uniqueCheck_iff (PyObj.all_joints n)

/-- A tree with a duplicated joint name, used to exercise the failure path
of `print_joints`' body. -/
def DupTree : PyObj :=
  PyObj.node "Dup" (attrsOf
    [("a", PyObj.str "J_dup"), ("b", PyObj.str "J_dup")])

/-- Does `needle` occur at the head of `hay`? -/
def leadsWith : List Char → List Char → Bool
  | [], _ => true
  | _ :: _, [] => false
  | a :: as, b :: bs => a == b && leadsWith as bs

/-- Does `needle` occur anywhere in `hay`? -/
def containsChars (needle : List Char) : List Char → Bool
  | [] => leadsWith needle []
  | c :: rest => leadsWith needle (c :: rest) || containsChars needle rest

/-- Substring test on strings (used to state that an error message does or
does not mention a joint name). -/
def strContains (hay needle : String) : Bool :=
  containsChars needle.data hay.data

/-- Claim C4 counterexample: on a tree with the duplicated joint `"J_dup"`,
the body of `print_joints` aborts with the fixed assert message
`"Duplicate joint names found!"`, which does not mention the offending
joint name — contradicting the claim that the failure message names the
offending joint. -/
theorem print_joints_failure_message_fixed :
    print_joints_on DupTree =
      Except.error "Duplicate joint names found!" ∧
    strContains "Duplicate joint names found!" "J_dup" = false := by
  constructor
  · rfl
  · rfl

/-- Claim C4 (amended): `print_joints` first runs the uniqueness check and
propagates (does not swallow) any duplicate-name failure, aborting — before
printing anything — with the fixed message
`"Duplicate joint names found!"` (which does not name the offending
joint); on success it prints the rendered tree followed by the count of
joints, in that order.  First conjunct: the body on any tree; second
conjunct: the actual entry point on `Robot` takes the success path. -/
theorem print_joints_spec :
    (∀ n : PyObj, print_joints_on n =
      if (PyObj.all_joints n).Nodup then
        Except.ok [PyObj.render n, toString (PyObj.all_joints n).length]
      else
        Except.error "Duplicate joint names found!") ∧
    print_joints =
      Except.ok [PyObj.render Robot,
        toString (PyObj.all_joints Robot).length] := by
  have hgen : ∀ n : PyObj, print_joints_on n =
      if (PyObj.all_joints n).Nodup then
        Except.ok [PyObj.render n, toString (PyObj.all_joints n).length]
      else
        Except.error "Duplicate joint names found!" := by
    intro n
    by_cases h : (PyObj.all_joints n).Nodup
    · have hb := (uniqueCheck_iff (PyObj.all_joints n)).mpr h
      simp [print_joints_on, hb, h]
    · have hb : uniqueCheck (PyObj.all_joints n) = false :=
        Bool.eq_false_iff.mpr (fun ht => h ((uniqueCheck_iff _).mp ht))
      simp [print_joints_on, hb, h]
  refine ⟨hgen, ?_⟩
  have h : (PyObj.all_joints Robot).Nodup := by decide
  rw [print_joints, hgen Robot, if_pos h]

/-- Claim C5 (confirmed): every key of the sign map and every key of the
default standing pose appears in `Robot.all_joints()` — the spec's
construction-time `DanglingReference` cross-check succeeds on this robot's
data. -/
theorem flat_table_keys_in_tree :
    ((dictKeys Robot.isaac_to_mujoco_signs ++
      dictKeys Robot.default_standing).all
        (fun k => (PyObj.all_joints Robot).contains k)) = true := by
  decide

/-- Claim C6 (confirmed, over the spec-modelled `sign_for`): looking up
`"L_hip_y"` returns `1`; looking up `"nonexistent"` fails with
`UnknownJoint("nonexistent")` instead of silently defaulting to `+1`; and
every value of the sign map is `+1` or `-1`. -/
theorem sign_for_spec :
    sign_for "L_hip_y" = Except.ok 1 ∧
    sign_for "nonexistent" =
      Except.error (RegError.UnknownJoint "nonexistent") ∧
    Robot.isaac_to_mujoco_signs.all
      (fun p => p.2 == 1 || p.2 == -1) = true := by
  refine ⟨rfl, rfl, ?_⟩
  decide

/-- Claim C7 counterexample: `Robot.all_joints()` is NOT the left-leg then
right-leg lists in per-class-body definition order — within each group the
names come out in alphabetical attribute order. -/
theorem robot_all_joints_not_definition_order :
    ¬ (PyObj.all_joints Robot =
      ["L_hip_y", "L_hip_x", "L_hip_z", "L_knee", "L_ankle_y",
       "R_hip_y", "R_hip_x", "R_hip_z", "R_knee", "R_ankle_y"]) := by
  decide

/-- Claim C7 (amended): `Robot.all_joints()` has length 10, the left leg's
5 joints all preceding the right leg's 5 (the `legs` group's children sort
as `left < right`), each group's joints listed in the alphabetical order of
the attribute names holding them (`dir` order), not class-body definition
order. -/
theorem robot_all_joints_value :
    PyObj.all_joints Robot =
      ["L_ankle_y", "L_hip_y", "L_hip_z", "L_hip_x", "L_knee",
       "R_ankle_y", "R_hip_y", "R_hip_z", "R_hip_x", "R_knee"] ∧
    (PyObj.all_joints Robot).length = 10 := by
  constructor
  · decide
  · decide

/-- Claim C8 (confirmed): `all_joints()` is deterministic — two invocations
on the same tree return identical sequences.  In the embedding
`PyObj.all_joints` is a pure function of the tree, so any two values
obtained from it on the same tree are equal; `dir(cls)`'s sorted order
makes the underlying Python iteration reproducible as well. -/
theorem all_joints_deterministic (n : PyObj) (l1 l2 : List String)
    (h1 : l1 = PyObj.all_joints n) (h2 : l2 = PyObj.all_joints n) :
    l1 = l2 :=
  h1.trans h2.symm

/-- Witness for the determinism theorem at the concrete `Robot` tree. -/
theorem all_joints_deterministic_witness :
    PyObj.all_joints Robot = PyObj.all_joints Robot :=
  all_joints_deterministic Robot
    (PyObj.all_joints Robot) (PyObj.all_joints Robot) rfl rfl

/-- Claim C9 (confirmed): the sign map's key set is exactly the set of the
10 leaf names of the tree (both inclusions), every entry maps to `+1`, and
hence the Isaac-to-MuJoCo sign lookup yields `1` for every joint of the
robot — the conversion is the identity on every joint. -/
theorem sign_map_keys_exact_identity :
    (((dictKeys Robot.isaac_to_mujoco_signs).all
        (fun k => (PyObj.all_joints Robot).contains k)) &&
     ((PyObj.all_joints Robot).all
        (fun j => (dictKeys Robot.isaac_to_mujoco_signs).contains j)) &&
     (Robot.isaac_to_mujoco_signs.all (fun p => p.2 == 1)) &&
     ((PyObj.all_joints Robot).all
        (fun j => Robot.isaac_to_mujoco_signs.lookup j == some 1))) =
      true := by
  decide

/-- Claim C10 (confirmed): `Robot.default_positions()` and
`Robot.default_limits()` are both empty dicts, so every lookup into either
table comes back empty — there is no joint for which a value is returned. -/
theorem default_tables_empty :
    Robot.default_positions = [] ∧ Robot.default_limits = [] ∧
    ∀ j : String,
      Robot.default_positions.lookup j = none ∧
      Robot.default_limits.lookup j = none :=
  ⟨rfl, rfl, fun _ => ⟨rfl, rfl⟩⟩
